import Mathlib

/-!
Verification of the CSS selector builder and JSON helpers in
`src/05-objects-tasks.js`.

The builder is a JS object whose methods shallow-copy the receiver
(`const obj = { ...this }`) and set or extend one string-valued field.
Fields are absent until first written, and every guard in the source is a
JavaScript truthiness test (`if (this.elVal) ...`), under which both a
missing field and the empty string count as false.  We embed each field as
an `Option String` (with `none` for absent) and truthiness as a boolean
predicate on it.
-/

namespace CoreJs

/-- JavaScript truthiness of an optional string-valued field: `none`
(absent) and `some ""` are falsy, every other string is truthy. -/
def truthy : Option String → Bool
  | none => false
  | some s => s ≠ ""

/-- Embeds the JS update pattern `if (!obj.x) { obj.x = v } else { obj.x += v }`
used by every fragment method of `cssSelectorBuilder`. -/
def setOrAppend (old : Option String) (v : String) : Option String :=
  if truthy old then some (old.getD "" ++ v) else some v

/-- Error kinds thrown by the builder: `cardinality` corresponds to
`countErrText` ("Element, id and pseudo-element should not occur more then
one time inside the selector"), `order` to `orderErrText` ("Selector parts
should be arranged in the following order: ..."). -/
inductive SelectorError
  | cardinality
  | order
deriving DecidableEq, Repr

/-- State of a `cssSelectorBuilder` value: the seven optional string
fields that the methods of the JS object read and write.  A fresh builder
(the `cssSelectorBuilder` literal itself) has every field absent. -/
structure Builder where
  elVal : Option String := none
  idVal : Option String := none
  classVal : Option String := none
  attrVal : Option String := none
  pseudoCl : Option String := none
  pseudoEl : Option String := none
  value : Option String := none
deriving DecidableEq, Repr

namespace Builder

/-- `element(value)` (src lines 122-132): throws `countErrText` if `elVal`
is truthy, `orderErrText` if `idVal` is truthy, else copies the receiver
and sets/extends `elVal` with `value`. -/
def element (b : Builder) (value : String) : Except SelectorError Builder :=
  if truthy b.elVal then .error .cardinality
  else if truthy b.idVal then .error .order
  else .ok { b with elVal := setOrAppend b.elVal value }

/-- `id(value)` (src lines 134-144): throws `countErrText` if `idVal` is
truthy, `orderErrText` if `classVal` or `pseudoEl` is truthy, else
sets/extends `idVal` with `"#" + value`. -/
def id (b : Builder) (value : String) : Except SelectorError Builder :=
  if truthy b.idVal then .error .cardinality
  else if truthy b.classVal || truthy b.pseudoEl then .error .order
  else .ok { b with idVal := setOrAppend b.idVal ("#" ++ value) }

/-- `class(value)` (src lines 146-155; `class` is a Lean keyword, hence
the name `classOp`): throws `orderErrText` if `attrVal` is truthy, else
sets/extends `classVal` with `"." + value`. -/
def classOp (b : Builder) (value : String) : Except SelectorError Builder :=
  if truthy b.attrVal then .error .order
  else .ok { b with classVal := setOrAppend b.classVal ("." ++ value) }

/-- `attr(value)` (src lines 157-166): throws `orderErrText` if `pseudoCl`
is truthy, else sets/extends `attrVal` with `"[" + value + "]"`. -/
def attr (b : Builder) (value : String) : Except SelectorError Builder :=
  if truthy b.pseudoCl then .error .order
  else .ok { b with attrVal := setOrAppend b.attrVal ("[" ++ value ++ "]") }

/-- `pseudoClass(value)` (src lines 168-177): throws `orderErrText` if
`pseudoEl` is truthy, else sets/extends `pseudoCl` with `":" + value`. -/
def pseudoClass (b : Builder) (value : String) : Except SelectorError Builder :=
  if truthy b.pseudoEl then .error .order
  else .ok { b with pseudoCl := setOrAppend b.pseudoCl (":" ++ value) }

/-- `pseudoElement(value)` (src lines 179-188): throws `countErrText` if
`pseudoEl` is truthy, else sets/extends `pseudoEl` with `"::" + value`. -/
def pseudoElement (b : Builder) (value : String) : Except SelectorError Builder :=
  if truthy b.pseudoEl then .error .cardinality
  else .ok { b with pseudoEl := setOrAppend b.pseudoEl ("::" ++ value) }

/-- `stringify()` (src lines 201-211): if `value` is truthy return it,
otherwise append each truthy fragment field to `res` in the fixed order
element, id, class, attribute, pseudo-class, pseudo-element. -/
def stringify (b : Builder) : String :=
  if truthy b.value then b.value.getD ""
  else
    let res := ""
    let res := if truthy b.elVal then res ++ b.elVal.getD "" else res
    let res := if truthy b.idVal then res ++ b.idVal.getD "" else res
    let res := if truthy b.classVal then res ++ b.classVal.getD "" else res
    let res := if truthy b.attrVal then res ++ b.attrVal.getD "" else res
    let res := if truthy b.pseudoCl then res ++ b.pseudoCl.getD "" else res
    let res := if truthy b.pseudoEl then res ++ b.pseudoEl.getD "" else res
    res

/-- `combine(selector1, combinator, selector2)` (src lines 190-199):
copies the receiver and sets/extends its `value` field with
`selector1.stringify() + " " + combinator + " " + selector2.stringify()`.
No guard is present, so the method never throws. -/
def combine (self selector1 : Builder) (combinator : String) (selector2 : Builder) : Builder :=
  { self with
    value := setOrAppend self.value
      (selector1.stringify ++ " " ++ combinator ++ " " ++ selector2.stringify) }

end Builder

/-- The `cssSelectorBuilder` facade object: a builder with no field set. -/
def cssSelectorBuilder : Builder := {}

/-- Concatenation, without separators, of exactly the present elements of
a list of optional fragments (the spec-side description of `stringify`'s
fragment assembly). -/
def concatPresent (l : List (Option String)) : String :=
  (l.filterMap (fun x => x)).foldr (fun s acc => s ++ acc) ""

lemma concatPresent_nil : concatPresent [] = "" := rfl

lemma concatPresent_cons (o : Option String) (l : List (Option String)) :
    concatPresent (o :: l) = o.getD "" ++ concatPresent l := by
  cases o with
  | none => simp [concatPresent, String.empty_append]
  | some s => simp [concatPresent]

lemma truthy_none : truthy none = false := rfl

lemma frag_step (o : Option String) (r : String) :
    (if truthy o then r ++ o.getD "" else r) = r ++ o.getD "" := by
  cases o with
  | none => simp [truthy, String.append_empty]
  | some s =>
    by_cases h : s = "" <;> simp [truthy, h, String.append_empty]

/-- C1: for every builder with no `combinedValue` set, `stringify` returns
the concatenation, in the fixed category order element, id, class,
attribute, pseudo-class, pseudo-element, of exactly the present fragments
with no separator; and the two spec examples
`id('main').class('container').class('editable')` ↦
`"#main.container.editable"` and
`element('a').attr('href$=".png"').pseudoClass('focus')` ↦
`'a[href$=".png"]:focus'` hold. -/
theorem C1_stringify_fixed_order_concat :
    (∀ b : Builder, b.value = none →
      b.stringify =
        concatPresent [b.elVal, b.idVal, b.classVal, b.attrVal, b.pseudoCl, b.pseudoEl]) ∧
    (Except.map Builder.stringify
        (Except.bind (Except.bind (cssSelectorBuilder.id "main")
            (fun b => b.classOp "container"))
          (fun b => b.classOp "editable")) =
      Except.ok "#main.container.editable") ∧
    (Except.map Builder.stringify
        (Except.bind (Except.bind (cssSelectorBuilder.element "a")
            (fun b => b.attr "href$=\".png\""))
          (fun b => b.pseudoClass "focus")) =
      Except.ok "a[href$=\".png\"]:focus") := by
  refine ⟨?_, rfl, rfl⟩
  intro b hv
  obtain ⟨el, idv, cl, av, pc, pe, v⟩ := b
  simp only at hv
  subst hv
  simp only [Builder.stringify, truthy_none, Bool.false_eq_true, if_false, frag_step]
  simp only [concatPresent_cons, concatPresent_nil, String.empty_append,
    String.append_empty, String.append_assoc]

/-- C1 witness: the general clause applied at the concrete builder holding
only an id fragment. -/
theorem C1_witness :
    ((Builder.mk none (some "#main") none none none none none).value = none) ∧
    (Builder.mk none (some "#main") none none none none none).stringify = "#main" :=
  ⟨rfl, by
    have h := C1_stringify_fixed_order_concat.1
      (Builder.mk none (some "#main") none none none none none) rfl
    simpa [concatPresent] using h⟩

lemma length_ne_zero_of_ne_empty (s : String) (h : s ≠ "") : s.length ≠ 0 := by
  cases s with
  | mk data =>
    cases data with
    | nil => exact absurd rfl h
    | cons c cs => simp [String.length]

lemma append_ne_empty_right (a b2 : String) (hb : b2 ≠ "") : a ++ b2 ≠ "" := by
  intro h
  have hl := congrArg String.length h
  have h0 : ("" : String).length = 0 := rfl
  rw [String.length_append, h0] at hl
  have := length_ne_zero_of_ne_empty b2 hb
  omega

lemma append_ne_empty_left (a b2 : String) (ha : a ≠ "") : a ++ b2 ≠ "" := by
  intro h
  have hl := congrArg String.length h
  have h0 : ("" : String).length = 0 := rfl
  rw [String.length_append, h0] at hl
  have := length_ne_zero_of_ne_empty a ha
  omega

lemma combined_ne_empty (a c b2 : String) : a ++ " " ++ c ++ " " ++ b2 ≠ "" := by
  apply append_ne_empty_left
  apply append_ne_empty_right
  decide

lemma truthy_some_of_ne (s : String) (h : s ≠ "") : truthy (some s) = true := by
  simp [truthy, h]

/-- C2 counterexample: writing `element` after a `class` fragment does not
fail with `OrderError` as the claim requires: it succeeds, and the result
stringifies to `"a.c"`.  The source's `element` guard (line 124) only
inspects `idVal`, never the later categories. -/
theorem C2_counterexample :
    Except.map Builder.stringify
      (Except.bind (cssSelectorBuilder.classOp "c") (fun b => b.element "a")) =
    Except.ok "a.c" := rfl

/-- C2 (amended): each write's `OrderError` guard checks only the specific
fields the source names, not every later category: `element` fails with
`OrderError` exactly when `idVal` is truthy (and `elVal` is not, else the
cardinality guard fires first); `id` exactly when `classVal` or `pseudoEl`
is truthy (and `idVal` is not); `class` exactly when `attrVal` is truthy;
`attr` exactly when `pseudoCl` is truthy; `pseudoClass` exactly when
`pseudoEl` is truthy; and `pseudoElement` never raises `OrderError`. -/
theorem C2_order_guard_exact (b : Builder) (v : String) :
    (b.element v = .error .order ↔ truthy b.elVal = false ∧ truthy b.idVal = true) ∧
    (b.id v = .error .order ↔
      truthy b.idVal = false ∧ (truthy b.classVal || truthy b.pseudoEl) = true) ∧
    (b.classOp v = .error .order ↔ truthy b.attrVal = true) ∧
    (b.attr v = .error .order ↔ truthy b.pseudoCl = true) ∧
    (b.pseudoClass v = .error .order ↔ truthy b.pseudoEl = true) ∧
    (b.pseudoElement v ≠ .error .order) := by
  refine ⟨?_, ?_, ?_, ?_, ?_, ?_⟩
  · cases hel : truthy b.elVal <;> cases hid : truthy b.idVal <;>
      simp [Builder.element, hel, hid]
  · cases hid : truthy b.idVal <;> cases hcl : truthy b.classVal <;>
      cases hpe : truthy b.pseudoEl <;> simp [Builder.id, hid, hcl, hpe]
  · cases hav : truthy b.attrVal <;> simp [Builder.classOp, hav]
  · cases hpc : truthy b.pseudoCl <;> simp [Builder.attr, hpc]
  · cases hpe : truthy b.pseudoEl <;> simp [Builder.pseudoClass, hpe]
  · cases hpe : truthy b.pseudoEl <;> simp [Builder.pseudoElement, hpe]

/-- C2 witness: the amended guard characterization applied at a builder
holding only an id fragment: writing `element` there raises `OrderError`. -/
theorem C2_witness :
    (Builder.mk none (some "#i") none none none none none).element "a" =
      Except.error SelectorError.order :=
  (C2_order_guard_exact (Builder.mk none (some "#i") none none none none none) "a").1.mpr
    (by refine ⟨rfl, ?_⟩; decide)

/-- C3 counterexample: a first `element` write with the empty string
leaves `elVal` equal to `""`, which is falsy, so a second `element` write
succeeds instead of raising `CardinalityError` as the claim requires for
every string value. -/
theorem C3_counterexample :
    Except.map Builder.stringify
      (Except.bind (cssSelectorBuilder.element "") (fun b => b.element "a")) =
    Except.ok "a" := rfl

/-- C3 (amended): a second write to a single-valued category fails with
`CardinalityError` whenever the stored fragment is truthy: after a
successful `element` write with a nonempty value any further `element`
write fails with `CardinalityError`, and after any successful `id` or
`pseudoElement` write (whose fragments always carry the `#` resp. `::`
punctuation, hence are never empty) any further write to the same category
fails with `CardinalityError`.  Only `element ""` escapes the rule. -/
theorem C3_second_write_cardinality (b b' : Builder) (v : String) :
    (∀ u, b.element v = .ok b' → v ≠ "" → b'.element u = .error .cardinality) ∧
    (∀ u, b.id v = .ok b' → b'.id u = .error .cardinality) ∧
    (∀ u, b.pseudoElement v = .ok b' → b'.pseudoElement u = .error .cardinality) := by
  refine ⟨?_, ?_, ?_⟩
  · intro u hok hv
    cases hel : truthy b.elVal <;> cases hid : truthy b.idVal <;>
      simp [Builder.element, hel, hid] at hok
    all_goals subst hok
    all_goals simp [Builder.element, setOrAppend, hel, truthy_some_of_ne v hv]
  · intro u hok
    cases hid : truthy b.idVal <;> cases hcl : truthy b.classVal <;>
      cases hpe : truthy b.pseudoEl <;> simp [Builder.id, hid, hcl, hpe] at hok
    subst hok
    simp [Builder.id, setOrAppend, hid,
      truthy_some_of_ne ("#" ++ v) (append_ne_empty_left "#" v (by decide))]
  · intro u hok
    cases hpe : truthy b.pseudoEl <;> simp [Builder.pseudoElement, hpe] at hok
    subst hok
    simp [Builder.pseudoElement, setOrAppend, hpe,
      truthy_some_of_ne ("::" ++ v) (append_ne_empty_left "::" v (by decide))]

/-- C3 witness: the amended rule applied at concrete first writes:
`element "a"` then `element "b"`, `id "x"` then `id "y"`, and
`pseudoElement "p"` then `pseudoElement "q"` each raise `CardinalityError`
on the second write. -/
theorem C3_witness :
    (Builder.mk (some "a") none none none none none none).element "b" =
        Except.error SelectorError.cardinality ∧
    (Builder.mk none (some "#x") none none none none none).id "y" =
        Except.error SelectorError.cardinality ∧
    (Builder.mk none none none none none (some "::p") none).pseudoElement "q" =
        Except.error SelectorError.cardinality :=
  ⟨(C3_second_write_cardinality cssSelectorBuilder
      (Builder.mk (some "a") none none none none none none) "a").1 "b" rfl (by decide),
   (C3_second_write_cardinality cssSelectorBuilder
      (Builder.mk none (some "#x") none none none none none) "x").2.1 "y" rfl,
   (C3_second_write_cardinality cssSelectorBuilder
      (Builder.mk none none none none none (some "::p") none) "p").2.2 "q" rfl⟩

/-- C4: the four ordering scenarios the spec lists all raise `OrderError`:
writing `id` after a class fragment (provided no id fragment is already
present, else the cardinality guard of line 135 fires first), `class`
after an attribute fragment, `attr` after a pseudo-class fragment, and
`pseudoClass` after the pseudo-element fragment. -/
theorem C4_order_error_scenarios (b : Builder) (v : String) :
    (truthy b.classVal = true → truthy b.idVal = false → b.id v = .error .order) ∧
    (truthy b.attrVal = true → b.classOp v = .error .order) ∧
    (truthy b.pseudoCl = true → b.attr v = .error .order) ∧
    (truthy b.pseudoEl = true → b.pseudoClass v = .error .order) := by
  refine ⟨?_, ?_, ?_, ?_⟩
  · intro hcl hid
    simp [Builder.id, hid, hcl]
  · intro hav
    simp [Builder.classOp, hav]
  · intro hpc
    simp [Builder.attr, hpc]
  · intro hpe
    simp [Builder.pseudoClass, hpe]

/-- C4 witness: the four scenarios at concrete builders reached by writing
a single fragment of the respective earlier category. -/
theorem C4_witness :
    (Builder.mk none none (some ".c") none none none none).id "x" =
        Except.error SelectorError.order ∧
    (Builder.mk none none none (some "[a]") none none none).classOp "x" =
        Except.error SelectorError.order ∧
    (Builder.mk none none none none (some ":h") none none).attr "x" =
        Except.error SelectorError.order ∧
    (Builder.mk none none none none none (some "::p") none).pseudoClass "x" =
        Except.error SelectorError.order :=
  ⟨(C4_order_error_scenarios (Builder.mk none none (some ".c") none none none none) "x").1
      (by decide) rfl,
   (C4_order_error_scenarios (Builder.mk none none none (some "[a]") none none none) "x").2.1
      (by decide),
   (C4_order_error_scenarios (Builder.mk none none none none (some ":h") none none) "x").2.2.1
      (by decide),
   (C4_order_error_scenarios (Builder.mk none none none none none (some "::p") none) "x").2.2.2
      (by decide)⟩

lemma stringify_value_truthy (b : Builder) (s : String) (hv : b.value = some s)
    (hs : s ≠ "") : b.stringify = s := by
  simp [Builder.stringify, hv, truthy_some_of_ne s hs]

/-- C5: `combine(A, t, B)` invoked on the facade (whose `value` field is
unset) yields a builder whose `stringify` is
`stringify(A) + " " + t + " " + stringify(B)` with single spaces around
the token, for every token string `t` — the source (lines 190-199) has no
guard, performs no ordering or cardinality check, and never inspects the
token. -/
theorem C5_combine_stringify (selector1 selector2 : Builder) (combinator : String) :
    (cssSelectorBuilder.combine selector1 combinator selector2).stringify =
      selector1.stringify ++ " " ++ combinator ++ " " ++ selector2.stringify := by
  have hne := combined_ne_empty selector1.stringify combinator selector2.stringify
  have h1 : (cssSelectorBuilder.combine selector1 combinator selector2).value =
      some (selector1.stringify ++ " " ++ combinator ++ " " ++ selector2.stringify) := by
    simp [cssSelectorBuilder, Builder.combine, setOrAppend, truthy_none]
  exact stringify_value_truthy _ _ h1 hne

/-- C6: every fragment operation and `combine` returns a new builder that
agrees with the receiver on every field other than the one the operation
writes — the source methods copy the receiver (`const obj = { ...this }`)
and assign a single field of the copy, so the receiver value is unchanged
and can be reused as a shared prefix (the embedding is a pure function of
the receiver, so the receiver itself is never modified). -/
theorem C6_operations_frame (b : Builder) (v : String) (b' : Builder) :
    (b.element v = .ok b' → b'.idVal = b.idVal ∧ b'.classVal = b.classVal ∧
      b'.attrVal = b.attrVal ∧ b'.pseudoCl = b.pseudoCl ∧ b'.pseudoEl = b.pseudoEl ∧
      b'.value = b.value) ∧
    (b.id v = .ok b' → b'.elVal = b.elVal ∧ b'.classVal = b.classVal ∧
      b'.attrVal = b.attrVal ∧ b'.pseudoCl = b.pseudoCl ∧ b'.pseudoEl = b.pseudoEl ∧
      b'.value = b.value) ∧
    (b.classOp v = .ok b' → b'.elVal = b.elVal ∧ b'.idVal = b.idVal ∧
      b'.attrVal = b.attrVal ∧ b'.pseudoCl = b.pseudoCl ∧ b'.pseudoEl = b.pseudoEl ∧
      b'.value = b.value) ∧
    (b.attr v = .ok b' → b'.elVal = b.elVal ∧ b'.idVal = b.idVal ∧
      b'.classVal = b.classVal ∧ b'.pseudoCl = b.pseudoCl ∧ b'.pseudoEl = b.pseudoEl ∧
      b'.value = b.value) ∧
    (b.pseudoClass v = .ok b' → b'.elVal = b.elVal ∧ b'.idVal = b.idVal ∧
      b'.classVal = b.classVal ∧ b'.attrVal = b.attrVal ∧ b'.pseudoEl = b.pseudoEl ∧
      b'.value = b.value) ∧
    (b.pseudoElement v = .ok b' → b'.elVal = b.elVal ∧ b'.idVal = b.idVal ∧
      b'.classVal = b.classVal ∧ b'.attrVal = b.attrVal ∧ b'.pseudoCl = b.pseudoCl ∧
      b'.value = b.value) ∧
    (∀ s1 s2 : Builder, (b.combine s1 v s2).elVal = b.elVal ∧
      (b.combine s1 v s2).idVal = b.idVal ∧ (b.combine s1 v s2).classVal = b.classVal ∧
      (b.combine s1 v s2).attrVal = b.attrVal ∧ (b.combine s1 v s2).pseudoCl = b.pseudoCl ∧
      (b.combine s1 v s2).pseudoEl = b.pseudoEl) := by
  refine ⟨?_, ?_, ?_, ?_, ?_, ?_, ?_⟩
  · intro hok
    cases hel : truthy b.elVal <;> cases hid : truthy b.idVal <;>
      simp [Builder.element, hel, hid] at hok
    all_goals subst hok
    all_goals simp
  · intro hok
    cases hid : truthy b.idVal <;> cases hcl : truthy b.classVal <;>
      cases hpe : truthy b.pseudoEl <;> simp [Builder.id, hid, hcl, hpe] at hok
    subst hok
    simp
  · intro hok
    cases hav : truthy b.attrVal <;> simp [Builder.classOp, hav] at hok
    subst hok
    simp
  · intro hok
    cases hpc : truthy b.pseudoCl <;> simp [Builder.attr, hpc] at hok
    subst hok
    simp
  · intro hok
    cases hpe : truthy b.pseudoEl <;> simp [Builder.pseudoClass, hpe] at hok
    subst hok
    simp
  · intro hok
    cases hpe : truthy b.pseudoEl <;> simp [Builder.pseudoElement, hpe] at hok
    subst hok
    simp
  · intro s1 s2
    simp [Builder.combine]

/-- C6 witness: the frame property applied at the facade for a concrete
class write: all fields other than `classVal` are unchanged. -/
theorem C6_witness :
    (Builder.mk none none (some ".c") none none none none).elVal =
        cssSelectorBuilder.elVal ∧
    (Builder.mk none none (some ".c") none none none none).idVal =
        cssSelectorBuilder.idVal ∧
    (Builder.mk none none (some ".c") none none none none).attrVal =
        cssSelectorBuilder.attrVal ∧
    (Builder.mk none none (some ".c") none none none none).pseudoCl =
        cssSelectorBuilder.pseudoCl ∧
    (Builder.mk none none (some ".c") none none none none).pseudoEl =
        cssSelectorBuilder.pseudoEl ∧
    (Builder.mk none none (some ".c") none none none none).value =
        cssSelectorBuilder.value :=
  (C6_operations_frame cssSelectorBuilder "c"
    (Builder.mk none none (some ".c") none none none none)).2.2.1 rfl

/-- C7: whenever `value` holds a truthy string (which every string stored
by `combine` is: it always contains the two spaces around the token),
`stringify` returns it verbatim, ignoring whatever fragment fields are
also present on the builder. -/
theorem C7_combinedValue_verbatim (b : Builder) (s : String) :
    (b.value = some s → s ≠ "" → b.stringify = s) ∧
    (∀ s1 s2 : Builder, ∃ t : String,
      (b.combine s1 s s2).value = some t ∧ t ≠ "") := by
  constructor
  · intro hv hs
    exact stringify_value_truthy b s hv hs
  · intro s1 s2
    cases hval : truthy b.value with
    | false =>
      refine ⟨s1.stringify ++ " " ++ s ++ " " ++ s2.stringify, ?_, combined_ne_empty _ _ _⟩
      simp [Builder.combine, setOrAppend, hval]
    | true =>
      refine ⟨b.value.getD "" ++ (s1.stringify ++ " " ++ s ++ " " ++ s2.stringify), ?_, ?_⟩
      · simp [Builder.combine, setOrAppend, hval, String.append_assoc]
      · exact append_ne_empty_right _ _ (combined_ne_empty _ _ _)

/-- C7 witness: a builder carrying both a combined value and an element
fragment stringifies to the combined value. -/
theorem C7_witness :
    (Builder.mk (some "a") none none none none none (some "x + y")).stringify = "x + y" :=
  (C7_combinedValue_verbatim
    (Builder.mk (some "a") none none none none none (some "x + y")) "x + y").1 rfl (by decide)

/-- `stringify` viewed as a state transformer on the receiver: the method
body (src lines 201-211) only reads the receiver's fields into the local
`res` and returns it — it contains no assignment to `this` — so its
translation returns the output string together with the unchanged
receiver. -/
def stringifyCall (b : Builder) : String × Builder := (b.stringify, b)

/-- C8: `stringify` is a pure, idempotent read: it leaves the builder's
state unchanged, a second call on the resulting state returns the same
string, and subsequent operations (here: any `class` write) behave on the
post-`stringify` state exactly as on the original builder. -/
theorem C8_stringify_pure_read (b : Builder) :
    (stringifyCall b).2 = b ∧
    (stringifyCall ((stringifyCall b).2)).1 = (stringifyCall b).1 ∧
    (∀ v, ((stringifyCall b).2).classOp v = b.classOp v) :=
  ⟨rfl, rfl, fun _ => rfl⟩

/-- C9: a `combine` invoked on a builder whose `value` is already a truthy
string does not replace it: the new combined string is appended directly
with no separator (src line 196, `obj.value += value`), and `stringify`
returns the concatenation; in particular chaining two `combine` calls on
the facade yields the two combined strings juxtaposed. -/
theorem C9_combine_appends (bld : Builder) (s : String) :
    (bld.value = some s → s ≠ "" → ∀ (c d : Builder) (t2 : String),
      (bld.combine c t2 d).value =
        some (s ++ (c.stringify ++ " " ++ t2 ++ " " ++ d.stringify))) ∧
    (∀ (a b2 c d : Builder) (t1 t2 : String),
      ((cssSelectorBuilder.combine a t1 b2).combine c t2 d).stringify =
        (a.stringify ++ " " ++ t1 ++ " " ++ b2.stringify) ++
          (c.stringify ++ " " ++ t2 ++ " " ++ d.stringify)) := by
  constructor
  · intro hv hs c d t2
    simp [Builder.combine, setOrAppend, hv, truthy_some_of_ne s hs, String.append_assoc]
  · intro a b2 c d t1 t2
    have h1 : (cssSelectorBuilder.combine a t1 b2).value =
        some (a.stringify ++ " " ++ t1 ++ " " ++ b2.stringify) := by
      simp [cssSelectorBuilder, Builder.combine, setOrAppend, truthy_none]
    have hb1 := combined_ne_empty a.stringify t1 b2.stringify
    have h2 : ∀ r1 : Builder,
        r1.value = some (a.stringify ++ " " ++ t1 ++ " " ++ b2.stringify) →
        (r1.combine c t2 d).value =
          some ((a.stringify ++ " " ++ t1 ++ " " ++ b2.stringify) ++
            (c.stringify ++ " " ++ t2 ++ " " ++ d.stringify)) := by
      intro r1 hv
      simp [Builder.combine, setOrAppend, hv, truthy_some_of_ne _ hb1]
    exact stringify_value_truthy _ _ (h2 _ h1)
      (append_ne_empty_right _ _ (combined_ne_empty c.stringify t2 d.stringify))

/-- C9 witness: the append clause applied at a builder whose `value` is
the nonempty string `"x"`. -/
theorem C9_witness :
    ((Builder.mk none none none none none none (some "x")).combine
        cssSelectorBuilder "+" cssSelectorBuilder).value =
      some ("x" ++ (cssSelectorBuilder.stringify ++ " " ++ "+" ++ " " ++
        cssSelectorBuilder.stringify)) :=
  (C9_combine_appends (Builder.mk none none none none none none (some "x")) "x").1
    rfl (by decide) cssSelectorBuilder cssSelectorBuilder "+"

/-- Result of `fromJSON` (src lines 58-62): a JS object with a prototype
(`Object.create(proto)`) and an ordered list of own enumerable properties.
Property values are kept abstract (`α`), as nothing in the source inspects
them. -/
structure ProtoObject (π : Type) (α : Type) where
  proto : π
  props : List (String × α)

/-- JS property assignment `object[k] = v` on an own-property list:
overwrite the existing entry for `k` in place, or append a new one. -/
def setProp {α : Type} (ps : List (String × α)) (k : String) (v : α) :
    List (String × α) :=
  if ps.any (fun p => p.1 == k) then ps.map (fun p => if p.1 == k then (k, v) else p)
  else ps ++ [(k, v)]

/-- `Object.assign(target, source)`: copies the source's own enumerable
properties into the target in property order. -/
def objectAssign {α : Type} (target source : List (String × α)) :
    List (String × α) :=
  source.foldl (fun acc kv => setProp acc kv.1 kv.2) target

/-- `getJSON(obj)` (src lines 42-44) delegates to the external library
function `JSON.stringify`, which is outside the repository; the serializer
is therefore passed as the parameter `ser`, applied to the object's own
enumerable properties. -/
def getJSON {α : Type} (ser : List (String × α) → String)
    (obj : List (String × α)) : String :=
  ser obj

/-- `fromJSON(proto, json)` (src lines 58-62): `Object.create(proto)`
(fresh object with prototype `proto` and no own properties) followed by
`Object.assign` of the result of the external library parser
`JSON.parse`, passed as the parameter `par`. -/
def fromJSON {π α : Type} (par : String → List (String × α)) (proto : π)
    (json : String) : ProtoObject π α :=
  { proto := proto, props := objectAssign [] (par json) }

lemma setProp_not_mem {α : Type} (acc : List (String × α)) (k : String) (v : α)
    (h : ∀ q ∈ acc, q.1 ≠ k) : setProp acc k v = acc ++ [(k, v)] := by
  have hany : acc.any (fun p => p.1 == k) = false := by
    rw [List.any_eq_false]
    intro p hp
    simp [h p hp]
  simp [setProp, hany]

lemma objectAssign_disjoint {α : Type} :
    ∀ (ps acc : List (String × α)),
      (∀ p ∈ ps, ∀ q ∈ acc, q.1 ≠ p.1) → (ps.map Prod.fst).Nodup →
      objectAssign acc ps = acc ++ ps := by
  intro ps
  induction ps with
  | nil =>
    intro acc _ _
    simp [objectAssign]
  | cons kv rest ih =>
    intro acc hdisj hnodup
    obtain ⟨k, v⟩ := kv
    have hnodup' : (k :: rest.map Prod.fst).Nodup := by simpa using hnodup
    have hk : k ∉ rest.map Prod.fst := (List.nodup_cons.mp hnodup').1
    have hset : setProp acc k v = acc ++ [(k, v)] :=
      setProp_not_mem acc k v
        (fun q hq => hdisj (k, v) (List.mem_cons_self _ _) q hq)
    have hstep : objectAssign acc ((k, v) :: rest) =
        objectAssign (setProp acc k v) rest := by
      simp [objectAssign]
    have hd : ∀ p ∈ rest, ∀ q ∈ acc ++ [(k, v)], q.1 ≠ p.1 := by
      intro p hp q hq
      rcases List.mem_append.mp hq with hq1 | hq2
      · exact hdisj p (List.mem_cons_of_mem _ hp) q hq1
      · have hq' : q = (k, v) := by simpa using hq2
        subst hq'
        intro hkp
        have hk' : k = p.1 := hkp
        exact hk (by rw [hk']; exact List.mem_map_of_mem Prod.fst hp)
    have hn : (rest.map Prod.fst).Nodup := (List.nodup_cons.mp hnodup').2
    rw [hstep, hset, ih (acc ++ [(k, v)]) hd hn]
    simp

/-- C10: the serialize-then-deserialize round trip: for every prototype
and every JSON-serializable object — modelled as one whose own enumerable
properties the external `JSON.parse`/`JSON.stringify` pair round-trips,
`par (ser obj) = obj`, with the distinct keys every JS object has —
`fromJSON proto (getJSON obj)` returns an object whose own enumerable
properties equal those of `obj` and whose prototype is `proto`. -/
theorem C10_getJSON_fromJSON_roundtrip {π α : Type}
    (ser : List (String × α) → String) (par : String → List (String × α))
    (proto : π) (obj : List (String × α))
    (hround : par (ser obj) = obj) (hnodup : (obj.map Prod.fst).Nodup) :
    (fromJSON par proto (getJSON ser obj)).props = obj ∧
    (fromJSON par proto (getJSON ser obj)).proto = proto := by
  refine ⟨?_, rfl⟩
  show objectAssign [] (par (ser obj)) = obj
  rw [hround,
    objectAssign_disjoint obj [] (fun p _ q hq => absurd hq (List.not_mem_nil q)) hnodup]
  simp

/-- C10 witness: the round trip applied at the one-property object
`[("a", 1)]` with prototype `0`, with a concrete serializer/parser pair
that round-trips that object. -/
theorem C10_witness :
    ((fun _ : String => [("a", (1 : Nat))]) ((fun _ : List (String × Nat) => "j")
        [("a", (1 : Nat))]) = [("a", (1 : Nat))]) ∧
    (fromJSON (fun _ : String => [("a", (1 : Nat))]) (0 : Nat)
        (getJSON (fun _ : List (String × Nat) => "j") [("a", (1 : Nat))])).props =
      [("a", (1 : Nat))] ∧
    (fromJSON (fun _ : String => [("a", (1 : Nat))]) (0 : Nat)
        (getJSON (fun _ : List (String × Nat) => "j") [("a", (1 : Nat))])).proto = 0 :=
  ⟨rfl,
   (C10_getJSON_fromJSON_roundtrip (fun _ => "j") (fun _ => [("a", (1 : Nat))])
      (0 : Nat) [("a", (1 : Nat))] rfl (by decide)).1,
   (C10_getJSON_fromJSON_roundtrip (fun _ => "j") (fun _ => [("a", (1 : Nat))])
      (0 : Nat) [("a", (1 : Nat))] rfl (by decide)).2⟩

end CoreJs
